import Mathlib

/-!
Verification of the frame-chain error model implemented in
src/ContextualException/ContextualException.hpp.

The C++ header defines a single class `ContextualException` holding a
`base_frame_`, an ordered vector `child_frames_` and a cached rendering
`error_message_`, together with free helpers in namespace
`contextual_exception::anonymous` (`Make`, `Wrap`, `SafeChain`).  The
definitions below are a direct shallow embedding of that code: values of
`Ctx.ContextualException` are the member state, each C++ member function
becomes a pure function from old state to new state, and the
`const std::exception&` parameters become the sum type `Ctx.StdException`
(a `dynamic_cast<const ContextualException*>` succeeds exactly on the
`contextual` variant).

Correspondence with the spec's operation names: `Create` is the plain
constructor, `CreateWrap` the wrapping constructor (spec `Wrap`),
`AppendException` is the spec's `Merge`, `GetFrameMessage` the spec's
`RenderSummary`, `DetailedErrorMessage` the spec's `RenderDetailed`, and
`SafeChain` the spec's `ChainInto` acting on an optional slot.
-/

namespace Ctx

/-- Mirrors `ContextualException::Frame`: message, numeric code, source
file, line, enclosing function, and a depth counter. -/
structure Frame where
  message : String
  code : Int
  file : String
  line : Int
  function : String
  depth : Int
deriving DecidableEq

/-- The default `Frame()` constructor: `code(0), line(0), depth(0)` and
default-initialized (empty) strings. -/
def Frame.init : Frame :=
  ⟨"", 0, "", 0, "", 0⟩

/-- The five-argument `Frame` constructor; `depth` starts at `0`. -/
def Frame.make (message : String) (code : Int) (file : String) (line : Int)
    (function : String) : Frame :=
  ⟨message, code, file, line, function, 0⟩

/-- A frame with its `depth` field forgotten; used to state which facts
hold up to the depth renumbering performed by `NormalizeChildDepth`. -/
def Frame.content (f : Frame) : String × Int × String × Int × String :=
  (f.message, f.code, f.file, f.line, f.function)

/-- The member state of a `ContextualException` object. -/
structure ContextualException where
  base_frame : Frame
  child_frames : List Frame
  error_message : String
deriving DecidableEq

/-- A value passed where the C++ code takes `const std::exception&`:
either a `ContextualException` (on which the `dynamic_cast` in the header
succeeds) or a foreign exception carrying only its `what()` text. -/
inductive StdException where
  | contextual (e : ContextualException)
  | foreign (w : String)

namespace ContextualException

/-- The default `ContextualException()` constructor: default frame, no
children, and — crucially — `error_message_` left as the empty string
(`AssignErrorMessage` is not called). -/
def init : ContextualException :=
  ⟨Frame.init, [], ""⟩

/-- `GetFrameMessage` (the spec's `RenderSummary`): renders one frame as
`<file>:<line> | <function>() | [code=<code>] <message>`, where the
code tag is emitted only when `code != 0`. -/
def GetFrameMessage (frame : Frame) : String :=
  frame.file ++ ":" ++ toString frame.line ++ " | " ++ frame.function ++ "() | "
    ++ (if frame.code ≠ 0 then "[code=" ++ toString frame.code ++ "] " else "")
    ++ frame.message

/-- `SetBaseFrame`: replace the base frame with a freshly made one. -/
def SetBaseFrame (e : ContextualException) (message : String) (code : Int)
    (file : String) (line : Int) (function : String) : ContextualException :=
  { e with base_frame := Frame.make message code file line function }

/-- `AssignErrorMessage`: cache the rendering of the current base frame. -/
def AssignErrorMessage (e : ContextualException) : ContextualException :=
  { e with error_message := GetFrameMessage e.base_frame }

/-- `AppendFramesFrom` after a successful cast: push `other`'s base frame,
then all of `other`'s child frames, onto `e.child_frames`. -/
def AppendFramesFrom (e other : ContextualException) : ContextualException :=
  { e with child_frames :=
      (e.child_frames ++ [other.base_frame]) ++ other.child_frames }

/-- `WrapOtherException`: fold a foreign exception's `what()` text into
the base frame's message (`msg + ", " + what`, or just `what` when the
message is empty). -/
def WrapOtherException (e : ContextualException) (w : String) : ContextualException :=
  { e with base_frame :=
      { e.base_frame with message :=
          if e.base_frame.message.isEmpty then w
          else e.base_frame.message ++ ", " ++ w } }

/-- The loop body of `NormalizeChildDepth`: assign `depth = index + 1`
position by position, `i` being the index of the head. -/
def setDepths : Nat → List Frame → List Frame
  | _, [] => []
  | i, f :: fs => { f with depth := (i : Int) + 1 } :: setDepths (i + 1) fs

/-- `NormalizeChildDepth`: renumber every child frame's depth to its
index plus one. -/
def NormalizeChildDepth (e : ContextualException) : ContextualException :=
  { e with child_frames := setDepths 0 e.child_frames }

/-- `IsContextualException`: the `dynamic_cast` null test. -/
def IsContextualException : StdException → Bool
  | .contextual _ => true
  | .foreign _ => false

/-- The `dynamic_cast<const ContextualException*>` performed inside
`AppendFramesFrom`, as a partial cast: `none` models the null pointer. -/
def dynCastToContextual : StdException → Option ContextualException
  | .contextual e => some e
  | .foreign _ => none

/-- `AppendFramesFrom` as called on a raw `const std::exception&`: the
result is `none` exactly when the unchecked `dynamic_cast` inside it
would yield a null pointer and the subsequent dereference would be
undefined behaviour. -/
def AppendFramesFromStd (e : ContextualException) (exc : StdException) :
    Option ContextualException :=
  (dynCastToContextual exc).map (fun origin => AppendFramesFrom e origin)

/-- `WrapException`: branch on `IsContextualException`, then normalize
child depths.  Matching on the sum type is the successful cast of the
guarded branch. -/
def WrapException (e : ContextualException) (exc : StdException) : ContextualException :=
  match exc with
  | .contextual origin => NormalizeChildDepth (AppendFramesFrom e origin)
  | .foreign w => NormalizeChildDepth (WrapOtherException e w)

/-- `AppendException` (the spec's `Merge`): append the other error's
frames, then renormalize depths. -/
def AppendException (e other : ContextualException) : ContextualException :=
  NormalizeChildDepth (AppendFramesFrom e other)

/-- The `(message, code, file, line, function)` constructor. -/
def Create (message : String) (code : Int) (file : String) (line : Int)
    (function : String) : ContextualException :=
  AssignErrorMessage (SetBaseFrame init message code file line function)

/-- The `(message, file, line, function)` constructor: `default_code = 0`. -/
def CreateNoCode (message : String) (file : String) (line : Int)
    (function : String) : ContextualException :=
  Create message 0 file line function

/-- The `(message, code, exception, file, line, function)` wrapping
constructor: set the base frame, wrap the exception, then cache the
rendering of the (possibly updated) base frame. -/
def CreateWrap (message : String) (code : Int) (exc : StdException)
    (file : String) (line : Int) (function : String) : ContextualException :=
  AssignErrorMessage (WrapException (SetBaseFrame init message code file line function) exc)

/-- The `(message, exception, file, line, function)` wrapping
constructor: `default_code = 0`. -/
def CreateWrapNoCode (message : String) (exc : StdException) (file : String)
    (line : Int) (function : String) : ContextualException :=
  CreateWrap message 0 exc file line function

/-- `what()`: returns the cached `error_message_`. -/
def what (e : ContextualException) : String :=
  e.error_message

/-- `Message()` accessor. -/
def Message (e : ContextualException) : String :=
  e.base_frame.message

/-- `Code()` accessor. -/
def Code (e : ContextualException) : Int :=
  e.base_frame.code

/-- `File()` accessor. -/
def File (e : ContextualException) : String :=
  e.base_frame.file

/-- `Line()` accessor. -/
def Line (e : ContextualException) : Int :=
  e.base_frame.line

/-- `Function()` accessor. -/
def Function (e : ContextualException) : String :=
  e.base_frame.function

/-- `DetailedErrorMessage` (the spec's `RenderDetailed`): the cached base
rendering, then one line `"\n    " + GetFrameMessage(child)` per child
frame, in order. -/
def DetailedErrorMessage (e : ContextualException) : String :=
  e.error_message
    ++ String.join (e.child_frames.map (fun f => "\n    " ++ GetFrameMessage f))

/-- `contextual_exception::anonymous::SafeChain` without a code (the
spec's `ChainInto`), acting on the caller's slot modelled as an
`Option`: a null slot is returned unchanged; otherwise the held error is
moved out, a fresh error is constructed into the slot, and the old one
is appended underneath it. -/
def SafeChain (file : String) (line : Int) (function : String)
    (message : String) (slot : Option ContextualException) :
    Option ContextualException :=
  match slot with
  | none => none
  | some lower => some (AppendException (CreateNoCode message file line function) lower)

/-- `SafeChain` overload taking a code. -/
def SafeChainCode (file : String) (line : Int) (function : String)
    (message : String) (code : Int) (slot : Option ContextualException) :
    Option ContextualException :=
  match slot with
  | none => none
  | some lower => some (AppendException (Create message code file line function) lower)

/-- Error values producible through the public interface: any of the five
constructors, then any sequence of `AppendException` calls. -/
inductive Reachable : ContextualException → Prop where
  | init : Reachable init
  | create (m : String) (c : Int) (f : String) (l : Int) (fn : String) :
      Reachable (Create m c f l fn)
  | createNoCode (m : String) (f : String) (l : Int) (fn : String) :
      Reachable (CreateNoCode m f l fn)
  | wrap (m : String) (c : Int) (exc : StdException) (f : String) (l : Int) (fn : String) :
      Reachable (CreateWrap m c exc f l fn)
  | wrapNoCode (m : String) (exc : StdException) (f : String) (l : Int) (fn : String) :
      Reachable (CreateWrapNoCode m exc f l fn)
  | append (e other : ContextualException) (h : Reachable e) :
      Reachable (AppendException e other)

/-- Error values producible through the public interface excluding the
default constructor — exactly those whose construction ran
`AssignErrorMessage`. -/
inductive ReachableAssigned : ContextualException → Prop where
  | create (m : String) (c : Int) (f : String) (l : Int) (fn : String) :
      ReachableAssigned (Create m c f l fn)
  | createNoCode (m : String) (f : String) (l : Int) (fn : String) :
      ReachableAssigned (CreateNoCode m f l fn)
  | wrap (m : String) (c : Int) (exc : StdException) (f : String) (l : Int) (fn : String) :
      ReachableAssigned (CreateWrap m c exc f l fn)
  | wrapNoCode (m : String) (exc : StdException) (f : String) (l : Int) (fn : String) :
      ReachableAssigned (CreateWrapNoCode m exc f l fn)
  | append (e other : ContextualException) (h : ReachableAssigned e) :
      ReachableAssigned (AppendException e other)

/-! ### Helper lemmas about `setDepths` and rendering -/

theorem string_append_empty (s : String) : s ++ "" = s := by
  cases s with
  | mk l =>
      show String.mk (l ++ []) = String.mk l
      rw [List.append_nil]

theorem setDepths_length (l : List Frame) (n : Nat) :
    (setDepths n l).length = l.length := by
  induction l generalizing n with
  | nil => rfl
  | cons f fs ih => simp [setDepths, ih]

theorem setDepths_get (l : List Frame) (n i : Nat)
    (hi : i < (setDepths n l).length) :
    ((setDepths n l).get ⟨i, hi⟩).depth = (n : Int) + (i : Int) + 1 := by
  induction l generalizing n i with
  | nil => simp [setDepths] at hi
  | cons f fs ih =>
      cases i with
      | zero => simp [setDepths]
      | succ j =>
          have hj : j < (setDepths (n + 1) fs).length := by
            simpa [setDepths] using hi
          have h2 := ih (n + 1) j hj
          calc ((setDepths n (f :: fs)).get ⟨j + 1, hi⟩).depth
              = ((setDepths (n + 1) fs).get ⟨j, hj⟩).depth := rfl
            _ = ((n + 1 : Nat) : Int) + (j : Int) + 1 := h2
            _ = (n : Int) + ((j + 1 : Nat) : Int) + 1 := by push_cast; ring

theorem setDepths_absorb (l m : List Frame) (n : Nat) :
    setDepths n (setDepths n l ++ m) = setDepths n (l ++ m) := by
  induction l generalizing n with
  | nil => rfl
  | cons f fs ih => simp [setDepths, ih]

theorem setDepths_map_content (l : List Frame) (n : Nat) :
    (setDepths n l).map Frame.content = l.map Frame.content := by
  induction l generalizing n with
  | nil => rfl
  | cons f fs ih => simp [setDepths, Frame.content, ih]

/-- The rendering of a frame never depends on its depth field. -/
theorem getFrameMessage_setDepth (f : Frame) (d : Int) :
    GetFrameMessage { f with depth := d } = GetFrameMessage f := rfl

theorem setDepths_map_line (s : String) (l : List Frame) (n : Nat) :
    (setDepths n l).map (fun f => s ++ GetFrameMessage f)
      = l.map (fun f => s ++ GetFrameMessage f) := by
  induction l generalizing n with
  | nil => rfl
  | cons f fs ih =>
      simp only [setDepths, List.map_cons, ih]
      rfl

/-- For every error built without the default constructor, the cached
`error_message_` is the rendering of its base frame. -/
theorem assigned_error_message (e : ContextualException)
    (h : ReachableAssigned e) :
    e.error_message = GetFrameMessage e.base_frame := by
  induction h with
  | create m c f l fn => rfl
  | createNoCode m f l fn => rfl
  | wrap m c exc f l fn => cases exc <;> rfl
  | wrapNoCode m exc f l fn => cases exc <;> rfl
  | append e other h ih => exact ih

/-! ### Claim theorems -/

/-- Claim C3: for every frame, `GetFrameMessage` (the spec's
`RenderSummary`) produces exactly `<file>:<line> | <function>() |
[code=<code>] <message>`, the code segment appearing iff the code is
nonzero; and the concrete frame `Create("disk full", 28, "io.cc", 42,
"Flush")` renders (via its cached `what()`) as
`io.cc:42 | Flush() | [code=28] disk full`. -/
theorem renderSummary_format (m : String) (c : Int) (f : String) (l : Int)
    (fn : String) (d : Int) :
    (c = 0 →
      GetFrameMessage ⟨m, c, f, l, fn, d⟩
        = f ++ ":" ++ toString l ++ " | " ++ fn ++ "() | " ++ m)
    ∧ (¬ c = 0 →
      GetFrameMessage ⟨m, c, f, l, fn, d⟩
        = f ++ ":" ++ toString l ++ " | " ++ fn ++ "() | "
            ++ ("[code=" ++ toString c ++ "] ") ++ m)
    ∧ (Create "disk full" 28 "io.cc" 42 "Flush").what
        = "io.cc:42 | Flush() | [code=28] disk full" := by
  refine ⟨?_, ?_, by decide⟩
  · intro h
    subst h
    show f ++ ":" ++ toString l ++ " | " ++ fn ++ "() | " ++ "" ++ m = _
    rw [string_append_empty]
  · intro h
    show f ++ ":" ++ toString l ++ " | " ++ fn ++ "() | "
        ++ (if c ≠ 0 then "[code=" ++ toString c ++ "] " else "") ++ m = _
    rw [if_pos h]

/-- Witness for C3: the two hypotheses of `renderSummary_format`
discharged at concrete frames, one with code 0 and one with code 28. -/
theorem renderSummary_format_witness :
    GetFrameMessage ⟨"m0", 0, "a.cc", 7, "F", 0⟩
        = "a.cc" ++ ":" ++ toString (7 : Int) ++ " | " ++ "F" ++ "() | " ++ "m0"
    ∧ GetFrameMessage ⟨"disk full", 28, "io.cc", 42, "Flush", 0⟩
        = "io.cc" ++ ":" ++ toString (42 : Int) ++ " | " ++ "Flush" ++ "() | "
            ++ ("[code=" ++ toString (28 : Int) ++ "] ") ++ "disk full" :=
  ⟨(renderSummary_format "m0" 0 "a.cc" 7 "F" 0).1 rfl,
   (renderSummary_format "disk full" 28 "io.cc" 42 "Flush" 0).2.1 (by decide)⟩

/-- Claim C5: wrapping a foreign (non-same-kind) exception leaves
`child_frames` empty and folds the foreign `what()` text into the base
message — `message ++ ", " ++ w` when the message is non-empty, `w`
alone when it is empty; concretely, wrapping a foreign error describing
`disk err` with message `flush failed` yields base message
`flush failed, disk err`. -/
theorem wrap_foreign_flattens (m : String) (c : Int) (w : String)
    (f : String) (l : Int) (fn : String) :
    (CreateWrap m c (StdException.foreign w) f l fn).child_frames = []
    ∧ (CreateWrap m c (StdException.foreign w) f l fn).Message
        = (if m.isEmpty then w else m ++ ", " ++ w)
    ∧ (CreateWrapNoCode "flush failed" (StdException.foreign "disk err") "x.cc" 7 "X").Message
        = "flush failed, disk err" :=
  ⟨rfl, rfl, by decide⟩

/-- Claim C7: `SafeChain` (the spec's `ChainInto`), in both overloads, is
a no-op on an empty slot: the slot stays empty and the returned slot
value is the empty slot. -/
theorem safeChain_empty_noop (f : String) (l : Int) (fn : String)
    (m : String) (c : Int) :
    SafeChain f l fn m none = none ∧ SafeChainCode f l fn m c none = none :=
  ⟨rfl, rfl⟩

/-- Claim C8: `AppendException` (the spec's `Merge`) modifies only the
child frames: the base frame, the cached one-line rendering, and every
base-frame accessor are unchanged (the `other` argument is taken by
`const&` and the embedding is pure, so it is never modified). -/
theorem merge_preserves_base_and_cache (e other : ContextualException) :
    (e.AppendException other).base_frame = e.base_frame
    ∧ (e.AppendException other).error_message = e.error_message
    ∧ (e.AppendException other).Message = e.Message
    ∧ (e.AppendException other).Code = e.Code
    ∧ (e.AppendException other).File = e.File
    ∧ (e.AppendException other).Line = e.Line
    ∧ (e.AppendException other).Function = e.Function :=
  ⟨rfl, rfl, rfl, rfl, rfl, rfl, rfl⟩

/-- Claim C9: the unchecked dereference of
`dynamic_cast<const ContextualException*>` inside `AppendFramesFrom`
(modelled by `AppendFramesFromStd`, whose `none` result is the null
dereference) is unreachable: whenever the `IsContextualException` guard
in `WrapException` holds the cast yields a value, and `AppendException`
passes an argument that is statically a `ContextualException`, on which
the cast always yields `some`. -/
theorem cast_in_appendFramesFrom_safe (e : ContextualException)
    (exc : StdException) :
    (IsContextualException exc = true →
        (AppendFramesFromStd e exc).isSome = true)
    ∧ (∀ o : ContextualException,
        AppendFramesFromStd e (StdException.contextual o)
          = some (AppendFramesFrom e o)) := by
  constructor
  · intro h
    cases exc with
    | contextual o => rfl
    | foreign w => simp [IsContextualException] at h
  · intro o
    rfl

/-- Witness for C9: the guard holds and the cast succeeds on a concrete
contextual argument. -/
theorem cast_in_appendFramesFrom_safe_witness :
    (AppendFramesFromStd ContextualException.init
        (StdException.contextual ContextualException.init)).isSome = true :=
  (cast_in_appendFramesFrom_safe ContextualException.init
      (StdException.contextual ContextualException.init)).1 rfl

/-- Claim C10: a default-constructed `ContextualException` has `what()`
equal to the empty string — not the rendering `:0 | () | ` of its empty
base frame, which is never cached — empty `Message`, `File` and
`Function`, `Code` and `Line` zero, no child frames, and an empty
`DetailedErrorMessage()`. -/
theorem default_exception_state :
    ContextualException.init.what = ""
    ∧ GetFrameMessage ContextualException.init.base_frame = ":0 | () | "
    ∧ ¬ ContextualException.init.what
        = GetFrameMessage ContextualException.init.base_frame
    ∧ ContextualException.init.Message = ""
    ∧ ContextualException.init.File = ""
    ∧ ContextualException.init.Function = ""
    ∧ ContextualException.init.Code = 0
    ∧ ContextualException.init.Line = 0
    ∧ ContextualException.init.child_frames = []
    ∧ DetailedErrorMessage ContextualException.init = "" :=
  ⟨rfl, by decide, by decide, rfl, rfl, rfl, rfl, rfl, rfl, rfl⟩

/-- Claim C1, counterexample: after `Merge(A, B)` then `Merge(A, C)` on
fresh errors, `A.child_frames` is not literally
`[B.base_frame] ++ B.child_frames ++ [C.base_frame] ++ C.child_frames`:
the appended copies have their depth renumbered to index + 1, while
`B.base_frame` and `C.base_frame` keep depth 0. -/
theorem merge_merge_exact_cex :
    ¬ (((Create "a" 0 "a.cc" 1 "A").AppendException
          (Create "b" 0 "b.cc" 2 "B")).AppendException
            (Create "c" 0 "c.cc" 3 "C")).child_frames
      = [(Create "b" 0 "b.cc" 2 "B").base_frame]
          ++ (Create "b" 0 "b.cc" 2 "B").child_frames
          ++ [(Create "c" 0 "c.cc" 3 "C").base_frame]
          ++ (Create "c" 0 "c.cc" 3 "C").child_frames := by
  decide

/-- Claim C1, amended: `Merge(A, B)` then `Merge(A, C)` leaves
`A.child_frames` equal to A's prior child frames followed by
`[B.base_frame]`, B's child frames, `[C.base_frame]`, C's child frames,
in that order with no reordering and no deduplication, except that every
entry's depth is renumbered to its index + 1 (`setDepths 0`); forgetting
the depth fields, the two lists agree entry by entry. -/
theorem merge_merge_child_frames (A B C : ContextualException) :
    ((A.AppendException B).AppendException C).child_frames
        = setDepths 0 (((A.child_frames ++ [B.base_frame]) ++ B.child_frames)
            ++ ([C.base_frame] ++ C.child_frames))
    ∧ ((A.AppendException B).AppendException C).child_frames.map Frame.content
        = ((((A.child_frames ++ [B.base_frame]) ++ B.child_frames)
            ++ ([C.base_frame] ++ C.child_frames)).map Frame.content) := by
  have h1 : ((A.AppendException B).AppendException C).child_frames
      = setDepths 0 (((A.child_frames ++ [B.base_frame]) ++ B.child_frames)
          ++ ([C.base_frame] ++ C.child_frames)) := by
    show setDepths 0
        ((setDepths 0 ((A.child_frames ++ [B.base_frame]) ++ B.child_frames)
            ++ [C.base_frame]) ++ C.child_frames) = _
    rw [List.append_assoc, setDepths_absorb]
  exact ⟨h1, by rw [h1, setDepths_map_content]⟩

/-- Claim C2: every error value reachable through the public interface
(any constructor, then any sequence of `AppendException` calls) has
`base_frame.depth = 0` and `child_frames[i].depth = i + 1` for every
index `i`. -/
theorem reachable_depth_invariant (e : ContextualException)
    (h : Reachable e) :
    e.base_frame.depth = 0
    ∧ ∀ i : Nat, ∀ hi : i < e.child_frames.length,
        (e.child_frames.get ⟨i, hi⟩).depth = (i : Int) + 1 := by
  induction h with
  | init =>
      refine ⟨rfl, fun i hi => ?_⟩
      simp [ContextualException.init] at hi
  | create m c f l fn =>
      refine ⟨rfl, fun i hi => ?_⟩
      simp [Create, AssignErrorMessage, SetBaseFrame, ContextualException.init] at hi
  | createNoCode m f l fn =>
      refine ⟨rfl, fun i hi => ?_⟩
      simp [CreateNoCode, Create, AssignErrorMessage, SetBaseFrame,
        ContextualException.init] at hi
  | wrap m c exc f l fn =>
      cases exc with
      | contextual o =>
          refine ⟨rfl, fun i hi => ?_⟩
          have hg := setDepths_get
            ((([] : List Frame) ++ [o.base_frame]) ++ o.child_frames) 0 i hi
          simpa using hg
      | foreign w =>
          refine ⟨rfl, fun i hi => ?_⟩
          simp [CreateWrap, AssignErrorMessage, WrapException, NormalizeChildDepth,
            WrapOtherException, SetBaseFrame, ContextualException.init, setDepths] at hi
  | wrapNoCode m exc f l fn =>
      cases exc with
      | contextual o =>
          refine ⟨rfl, fun i hi => ?_⟩
          have hg := setDepths_get
            ((([] : List Frame) ++ [o.base_frame]) ++ o.child_frames) 0 i hi
          simpa using hg
      | foreign w =>
          refine ⟨rfl, fun i hi => ?_⟩
          simp [CreateWrapNoCode, CreateWrap, AssignErrorMessage, WrapException,
            NormalizeChildDepth, WrapOtherException, SetBaseFrame,
            ContextualException.init, setDepths] at hi
  | append e other h ih =>
      refine ⟨ih.1, fun i hi => ?_⟩
      show ((setDepths 0 ((e.child_frames ++ [other.base_frame])
          ++ other.child_frames)).get ⟨i, hi⟩).depth = (i : Int) + 1
      rw [setDepths_get]
      simp

/-- Witness for C2: the invariant instantiated at a concrete reachable
error, one `Create` followed by one `AppendException`. -/
theorem reachable_depth_invariant_witness :
    (AppendException (Create "a" 1 "f.cc" 2 "G")
        (Create "b" 0 "g.cc" 3 "H")).base_frame.depth = 0
    ∧ ((AppendException (Create "a" 1 "f.cc" 2 "G")
        (Create "b" 0 "g.cc" 3 "H")).child_frames.map Frame.depth) = [1] :=
  ⟨(reachable_depth_invariant _
      (Reachable.append _ _ (Reachable.create "a" 1 "f.cc" 2 "G"))).1,
   by decide⟩

/-- Claim C4, counterexample: the default-constructed error is reachable
through the public interface, yet its `DetailedErrorMessage` does not
start with the rendering of its base frame: the cached first line is the
empty string, not `:0 | () | `. -/
theorem detailed_default_cex :
    Reachable ContextualException.init
    ∧ ¬ DetailedErrorMessage ContextualException.init
        = GetFrameMessage ContextualException.init.base_frame
          ++ String.join (ContextualException.init.child_frames.map
              (fun f => "\n    " ++ GetFrameMessage f)) :=
  ⟨Reachable.init, by decide⟩

/-- Claim C4, amended: for every error value built through the public
interface except by the default constructor, `DetailedErrorMessage`
(the spec's `RenderDetailed`) is the one-line rendering of the base
frame followed by one `"\n    "`-indented line per child frame, in
order, each rendered with `GetFrameMessage`; the default-constructed
error instead contributes its cached empty first line. -/
theorem detailed_lines_structure (e : ContextualException)
    (h : ReachableAssigned e) :
    DetailedErrorMessage e
      = GetFrameMessage e.base_frame
        ++ String.join (e.child_frames.map (fun f => "\n    " ++ GetFrameMessage f)) := by
  show e.error_message ++ _ = _
  rw [assigned_error_message e h]

/-- Witness for C4: the spec's concrete case — `E1 = Create("open
failed", "db.cc", 10, "Open")`, `E2 = Create("init failed", "main.cc",
5, "Main")`, `Merge(E2, E1)` — renders as `main.cc:5 | Main() | init
failed` followed by the indented `db.cc:10 | Open() | open failed`. -/
theorem detailed_lines_structure_witness :
    DetailedErrorMessage (AppendException
        (CreateNoCode "init failed" "main.cc" 5 "Main")
        (CreateNoCode "open failed" "db.cc" 10 "Open"))
      = "main.cc:5 | Main() | init failed\n    db.cc:10 | Open() | open failed" := by
  have h := detailed_lines_structure
    (AppendException (CreateNoCode "init failed" "main.cc" 5 "Main")
      (CreateNoCode "open failed" "db.cc" 10 "Open"))
    (ReachableAssigned.append
      (CreateNoCode "init failed" "main.cc" 5 "Main")
      (CreateNoCode "open failed" "db.cc" 10 "Open")
      (ReachableAssigned.createNoCode "init failed" "main.cc" 5 "Main"))
  exact h.trans (by decide)

/-- Claim C6: wrapping a same-kind error `F` with `k` child frames gives
an error whose child list has `1 + k` entries and whose
`DetailedErrorMessage` is the `1 + 1 + k`-line report: the new base
frame's line, then an indented line for `F`'s base frame, then an
indented line for each of `F`'s `k` children, in order. -/
theorem wrap_samekind_line_structure (m : String) (c : Int)
    (F : ContextualException) (f : String) (l : Int) (fn : String) :
    (CreateWrap m c (StdException.contextual F) f l fn).child_frames.length
        = 1 + F.child_frames.length
    ∧ DetailedErrorMessage (CreateWrap m c (StdException.contextual F) f l fn)
        = GetFrameMessage (Frame.make m c f l fn)
          ++ String.join ((F.base_frame :: F.child_frames).map
              (fun fr => "\n    " ++ GetFrameMessage fr))
    ∧ (GetFrameMessage (Frame.make m c f l fn)
        :: (F.base_frame :: F.child_frames).map
            (fun fr => "\n    " ++ GetFrameMessage fr)).length
      = 1 + 1 + F.child_frames.length := by
  refine ⟨?_, ?_, ?_⟩
  · show (setDepths 0 ((([] : List Frame) ++ [F.base_frame]) ++ F.child_frames)).length = _
    rw [setDepths_length]
    simp [Nat.add_comm]
  · show GetFrameMessage (Frame.make m c f l fn)
        ++ String.join ((setDepths 0 ((([] : List Frame) ++ [F.base_frame])
            ++ F.child_frames)).map (fun fr => "\n    " ++ GetFrameMessage fr)) = _
    rw [setDepths_map_line]
    simp
  · simp only [List.length_cons, List.length_map]
    omega

end ContextualException

end Ctx
